import Mathlib

/-!
Verification of the call-rate limiter of pykrakenapi
(src/pykrakenapi/pykrakenapi.py).

The limiter is the `callratelimiter` decorator (lines 35-76) together with
the state set up in `KrakenAPI.__init__` (lines 110-128).  We embed it
shallowly:

* Wall-clock instants are natural numbers of whole seconds.  The Python
  code computes `(now - self.time_of_last_query).seconds`, the seconds
  *component* of a `datetime.timedelta`: for a non-negative delta whose
  whole-second part is `e`, this component equals `e % 86400` (days are
  dropped), and the sub-second microseconds never influence the result,
  because `int(s / factor)` with integer `s` and integer `factor` cannot
  cross an integer-division boundary within a fraction of a second.
  Hence modelling instants as whole seconds is exact.
* The mutable attributes `time_of_last_query`, `api_counter`, `limit`
  and `factor` become a record `RateState`.  `limit` and `factor` are
  `Option`s because `__init__` leaves them unset for tiers outside
  {2, 3, 4}; reading an unset attribute raises `AttributeError`, which
  the embedding reports as the outcome `attributeError`.
* The wrapped API function is abstracted by its outcome: `Except ε`
  (raising an exception) of `Option α` (a returned value, `none` being
  Python's `None`).  The wrapper's observable behaviour is collected in
  `CallResult`: the returned/raised outcome, the post-call state, the
  lines printed, and whether the wrapped function was invoked at all.
-/

namespace PyKraken

/-- The two `query_type` strings that ever occur at a decoration site in
the repository: `'ledger/trade history'` (lines 456, 616, 881, 986, 1098,
1180, 1227) and `'other'` (all remaining sites).  Lines 51-54 of the
source assign `incr = 2` for the former and `incr = 1` for the latter. -/
inductive QueryType where
  | ledgerTradeHistory
  | other
deriving DecidableEq

/-- Lines 50-54: `incr = 2` for `'ledger/trade history'`, `incr = 1`
for `'other'`. -/
def incrOf : QueryType → Int
  | QueryType.ledgerTradeHistory => 2
  | QueryType.other => 1

/-- The limiter state held on a `KrakenAPI` instance:
`time_of_last_query` (seconds), `api_counter`, and the tier-dependent
`limit` and `factor` (absent when `__init__` took no branch). -/
structure RateState where
  timeOfLastQuery : Nat
  apiCounter : Int
  limit : Option Int
  factor : Option Nat
deriving DecidableEq

/-- `KrakenAPI.__init__` (lines 110-128): `time_of_last_query = now`,
`api_counter = 0`, then the tier dispatch `if tier == 2 ... elif tier == 3
... elif tier == 4 ...` with no else branch: any other tier leaves
`limit` and `factor` unset. -/
def initKrakenAPI (tier : Int) (now : Nat) : RateState :=
  let base : RateState :=
    { timeOfLastQuery := now, apiCounter := 0, limit := none, factor := none }
  if tier = 2 then { base with limit := some 15, factor := some 3 }
  else if tier = 3 then { base with limit := some 20, factor := some 2 }
  else if tier = 4 then { base with limit := some 20, factor := some 1 }
  else base

/-- Line 58: `decr = int((now - self.time_of_last_query).seconds /
self.factor)`.  For elapsed whole seconds `now - last ≥ 0`, the
`timedelta.seconds` component is `(now - last) % 86400`, and
`int(_ / factor)` is floor division. -/
def decrUnits (factor : Nat) (last now : Nat) : Nat :=
  ((now - last) % 86400) / factor

/-- Lines 59-61: `self.api_counter -= decr; if self.api_counter < 0:
self.api_counter = 0` — the counter after decay, clamped at 0. -/
def decayedCounter (s : RateState) (factor : Nat) (now : Nat) : Int :=
  if s.apiCounter - (decrUnits factor s.timeOfLastQuery now : Int) < 0 then 0
  else s.apiCounter - (decrUnits factor s.timeOfLastQuery now : Int)

/-- Observable outcome of one wrapped call: a Python return value
(`ret none` is `return None`), a propagated exception, or the
`AttributeError` raised when `factor` or `limit` was never set. -/
inductive PyOutcome (ε α : Type) where
  | ret : Option α → PyOutcome ε α
  | raised : ε → PyOutcome ε α
  | attributeError : PyOutcome ε α
deriving DecidableEq

/-- Everything one call through the wrapper produces: the outcome, the
state left behind, the lines printed, and whether the wrapped function
was invoked. -/
structure CallResult (ε α : Type) where
  outcome : PyOutcome ε α
  state : RateState
  printed : List String
  calledFunc : Bool
deriving DecidableEq

/-- The `wrapper` body of the `callratelimiter` decorator (lines 38-73).
Reading order matches the source: `incr` from `query_type` (51-54),
`self.factor` read inside the `decr` computation (58) — `AttributeError`
before any mutation if unset —, counter decay and clamp (59-61),
`self.time_of_last_query = now` (62), then the admission test
`self.api_counter < self.limit` (65): if it holds the wrapped function
runs, the counter is incremented by `incr` only after it returns
normally (66-68); otherwise a message is printed and `None` returned
(70-73). -/
def callratelimiter (ε α : Type) (queryType : QueryType)
    (funcOutcome : Except ε (Option α)) (s : RateState) (now : Nat) :
    CallResult ε α :=
  match s.factor with
  | none =>
      { outcome := PyOutcome.attributeError, state := s, printed := [],
        calledFunc := false }
  | some factor =>
      let incr := incrOf queryType
      let c := decayedCounter s factor now
      let s1 : RateState := { s with apiCounter := c, timeOfLastQuery := now }
      match s.limit with
      | none =>
          { outcome := PyOutcome.attributeError, state := s1, printed := [],
            calledFunc := false }
      | some limit =>
          if c < limit then
            match funcOutcome with
            | Except.ok v =>
                { outcome := PyOutcome.ret v,
                  state := { s1 with apiCounter := c + incr }, printed := [],
                  calledFunc := true }
            | Except.error e =>
                { outcome := PyOutcome.raised e, state := s1, printed := [],
                  calledFunc := true }
          else
            { outcome := PyOutcome.ret none, state := s1,
              printed := ["api count limit exceeded, counter= " ++
                toString s1.apiCounter],
              calledFunc := false }

/-- A tier-2 state (`limit = 15`, `factor = 3`) with last-query time 0
and the given counter, used as a concrete probe in witnesses. -/
def probeState (c : Int) : RateState :=
  { timeOfLastQuery := 0, apiCounter := c, limit := some 15, factor := some 3 }

/-- One admission check in a run: the cost class, the wall-clock instant
at which it happens, and whether the wrapped function would return
normally. -/
structure CallEvent where
  queryType : QueryType
  now : Nat
  funcOk : Bool
deriving DecidableEq

/-- The outcome fed to the wrapper for an event: a normal `None` return
or an exception, enough to drive the state evolution. -/
def eventOutcome (e : CallEvent) : Except Unit (Option Unit) :=
  if e.funcOk then Except.ok none else Except.error ()

/-- Run a sequence of admission checks, threading the limiter state. -/
def runCalls (s : RateState) : List CallEvent → RateState
  | [] => s
  | e :: rest =>
      runCalls ((callratelimiter Unit Unit e.queryType (eventOutcome e)
        s e.now).state) rest

/-- Run a sequence of admission checks, recording for each whether the
wrapped function was invoked, and returning the final state. -/
def runTrace (s : RateState) : List CallEvent → List Bool × RateState
  | [] => ([], s)
  | e :: rest =>
      let r := callratelimiter Unit Unit e.queryType (eventOutcome e) s e.now
      let t := runTrace r.state rest
      (r.calledFunc :: t.1, t.2)

/-! ## Helper lemmas -/

/-- The clamp on lines 60-61 makes the decayed counter non-negative. -/
theorem decayedCounter_nonneg (s : RateState) (f : Nat) (now : Nat) :
    0 ≤ decayedCounter s f now := by
  unfold decayedCounter
  split <;> omega

/-- Both cost increments are positive. -/
theorem incrOf_pos (q : QueryType) : 0 < incrOf q := by
  cases q <;> decide

/-- One pass through the wrapper preserves non-negativity of the counter. -/
theorem step_state_nonneg (ε α : Type) (qt : QueryType)
    (fo : Except ε (Option α)) (s : RateState) (now : Nat)
    (h : 0 ≤ s.apiCounter) :
    0 ≤ (callratelimiter ε α qt fo s now).state.apiCounter := by
  rcases s with ⟨t, c, lim, fac⟩
  rcases fac with _ | f
  · simpa [callratelimiter] using h
  · rcases lim with _ | l
    · simpa [callratelimiter] using
        decayedCounter_nonneg ⟨t, c, none, some f⟩ f now
    · by_cases hc : decayedCounter ⟨t, c, some l, some f⟩ f now < l
      · rcases fo with e | v
        · simpa [callratelimiter, hc] using
            decayedCounter_nonneg ⟨t, c, some l, some f⟩ f now
        · have h1 := decayedCounter_nonneg ⟨t, c, some l, some f⟩ f now
          have h2 := incrOf_pos qt
          simp only [callratelimiter, hc, if_pos]
          omega
      · simpa [callratelimiter, hc] using
          decayedCounter_nonneg ⟨t, c, some l, some f⟩ f now

/-- `__init__` zeroes the counter for every tier, recognized or not. -/
theorem initKrakenAPI_apiCounter (tier : Int) (now : Nat) :
    (initKrakenAPI tier now).apiCounter = 0 := by
  simp only [initKrakenAPI]
  split_ifs <;> rfl

/-- Non-negativity is preserved along any run of admission checks. -/
theorem runCalls_nonneg_aux (evs : List CallEvent) (s : RateState)
    (h : 0 ≤ s.apiCounter) : 0 ≤ (runCalls s evs).apiCounter := by
  induction evs generalizing s with
  | nil => simpa [runCalls] using h
  | cons e rest ih =>
      rw [runCalls]
      exact ih _ (step_state_nonneg Unit Unit e.queryType (eventOutcome e) s
        e.now h)

/-! ## Claim theorems -/

/-- C1: the claim says an elapsed time of `k * decay_period + r` decreases
the counter by exactly `floor(elapsed / decay_period) = k`, independent of
how large `k` is.  The code instead reads the `seconds` component of the
timedelta, which drops whole days: at tier 2 (`factor = 3`), after exactly
86400 seconds of silence the code banks `0` decay units where the claim
requires `86400 / 3 = 28800`, so a counter of `5` stays at `5` instead of
being clamped down to `max 0 (5 - 28800) = 0`. -/
theorem C1_decay_day_wrap :
    decrUnits 3 0 86400 = 0 ∧
    (86400 : Nat) / 3 = 28800 ∧
    decayedCounter { timeOfLastQuery := 0, apiCounter := 5,
                     limit := some 15, factor := some 3 } 3 86400 = 5 ∧
    max (0 : Int) (5 - 28800) = 0 := by
  refine ⟨rfl, rfl, by decide, by decide⟩

/-- C2: along every sequence of admission checks started from a freshly
constructed client, whatever the cost classes, instants and call outcomes
of the checks, the counter is non-negative after each check (the state
after each check is the state `runCalls` reaches on the corresponding
prefix of events). -/
theorem C2_counter_nonneg (tier : Int) (t0 : Nat) (evs : List CallEvent) :
    0 ≤ (runCalls (initKrakenAPI tier t0) evs).apiCounter :=
  runCalls_nonneg_aux evs (initKrakenAPI tier t0)
    (le_of_eq (initKrakenAPI_apiCounter tier t0).symm)

/-- C6: Scenario A at tier 2 (`limit = 15`, `factor = 3`): starting from a
fresh client, 9 back-to-back heavy calls (no elapsed time) produce the
admission trace `[true × 8, false]`; the counter is 14 after 7 calls, and
the final state after the refused 9th call still holds counter 16. -/
theorem C6_scenario_a :
    (runCalls (initKrakenAPI 2 0) (List.replicate 7
      { queryType := QueryType.ledgerTradeHistory, now := 0,
        funcOk := true })).apiCounter = 14 ∧
    runTrace (initKrakenAPI 2 0) (List.replicate 9
      { queryType := QueryType.ledgerTradeHistory, now := 0,
        funcOk := true }) =
      ([true, true, true, true, true, true, true, true, false],
       { timeOfLastQuery := 0, apiCounter := 16,
         limit := some 15, factor := some 3 }) := by
  refine ⟨by decide, by decide⟩

/-- C7: the claim says constructing with a tier outside {2, 3, 4} fails at
construction time with `InvalidTierConfiguration`.  The code's `__init__`
has no else branch: construction with tier 5 succeeds silently, leaving
`limit` and `factor` unset, and the failure only surfaces as an
`AttributeError` on the first wrapped call. -/
theorem C7_tier5_silent_construction :
    (initKrakenAPI 5 0).limit = none ∧
    (initKrakenAPI 5 0).factor = none ∧
    (initKrakenAPI 5 0).apiCounter = 0 ∧
    (callratelimiter Unit Unit QueryType.other (Except.ok none)
      (initKrakenAPI 5 0) 1).outcome = PyOutcome.attributeError := by
  refine ⟨by decide, by decide, by decide, by decide⟩

/-- C3: with the tier attributes set, a call is admitted (the wrapped
function is invoked) exactly when the decayed counter is strictly below
the limit; a decayed counter at or above the limit is refused. -/
theorem C3_admission_threshold (ε α : Type) (qt : QueryType)
    (fo : Except ε (Option α)) (s : RateState) (now : Nat) (f : Nat) (l : Int)
    (hf : s.factor = some f) (hl : s.limit = some l) :
    (callratelimiter ε α qt fo s now).calledFunc = true ↔
      decayedCounter s f now < l := by
  by_cases hc : decayedCounter s f now < l
  · rcases fo with e | v <;> simp [callratelimiter, hf, hl, hc]
  · simp [callratelimiter, hf, hl, hc]

/-- Witness for C3 at a concrete refusing state: counter 20 at limit 15,
no elapsed time, so the wrapped function is not invoked. -/
theorem C3_admission_threshold_witness :
    ((callratelimiter Unit Unit QueryType.other (Except.ok none)
      (probeState 20) 0).calledFunc = true ↔
      decayedCounter (probeState 20) 3 0 < 15) :=
  C3_admission_threshold Unit Unit QueryType.other (Except.ok none)
    (probeState 20) 0 3 15 rfl rfl

/-- C4: a refused check leaves the counter at exactly its post-decay
value (no increment) and never invokes the wrapped function. -/
theorem C4_refusal_free (ε α : Type) (qt : QueryType)
    (fo : Except ε (Option α)) (s : RateState) (now : Nat) (f : Nat) (l : Int)
    (hf : s.factor = some f) (hl : s.limit = some l)
    (hrefuse : l ≤ decayedCounter s f now) :
    (callratelimiter ε α qt fo s now).state.apiCounter =
      decayedCounter s f now ∧
    (callratelimiter ε α qt fo s now).calledFunc = false := by
  have hc : ¬ decayedCounter s f now < l := not_lt.mpr hrefuse
  simp [callratelimiter, hf, hl, hc]

/-- Witness for C4: counter 20 at limit 15 with no elapsed time; the
refused check keeps the decayed counter 20 and skips the function. -/
theorem C4_refusal_free_witness :
    (15 : Int) ≤ decayedCounter (probeState 20) 3 0 ∧
    ((callratelimiter Unit Unit QueryType.other (Except.ok none)
      (probeState 20) 0).state.apiCounter =
        decayedCounter (probeState 20) 3 0 ∧
    (callratelimiter Unit Unit QueryType.other (Except.ok none)
      (probeState 20) 0).calledFunc = false) :=
  ⟨by decide,
   C4_refusal_free Unit Unit QueryType.other (Except.ok none)
     (probeState 20) 0 3 15 rfl rfl (by decide)⟩

/-- C5: an admitted call that returns normally increments the counter
over its post-decay value by exactly 2 in the `'ledger/trade history'`
class and by exactly 1 in the `'other'` class, and these two are the only
cost values the decorator assigns. -/
theorem C5_cost_accounting (ε α : Type) (s : RateState) (now : Nat)
    (f : Nat) (l : Int) (v : Option α)
    (hf : s.factor = some f) (hl : s.limit = some l)
    (hadm : decayedCounter s f now < l) :
    (callratelimiter ε α QueryType.ledgerTradeHistory (Except.ok v) s
        now).state.apiCounter = decayedCounter s f now + 2 ∧
    (callratelimiter ε α QueryType.other (Except.ok v) s
        now).state.apiCounter = decayedCounter s f now + 1 ∧
    ∀ q : QueryType, incrOf q = 1 ∨ incrOf q = 2 := by
  refine ⟨?_, ?_, fun q => by cases q <;> simp [incrOf]⟩ <;>
    simp [callratelimiter, hf, hl, hadm, incrOf]

/-- Witness for C5 at a fresh tier-2 state: a heavy call moves the
counter from 0 to 2, a light one from 0 to 1. -/
theorem C5_cost_accounting_witness :
    decayedCounter (probeState 0) 3 0 < 15 ∧
    ((callratelimiter Unit Unit QueryType.ledgerTradeHistory
      (Except.ok none) (probeState 0) 0).state.apiCounter =
        decayedCounter (probeState 0) 3 0 + 2 ∧
    (callratelimiter Unit Unit QueryType.other
      (Except.ok none) (probeState 0) 0).state.apiCounter =
        decayedCounter (probeState 0) 3 0 + 1 ∧
    ∀ q : QueryType, incrOf q = 1 ∨ incrOf q = 2) :=
  ⟨by decide,
   C5_cost_accounting Unit Unit (probeState 0) 0 3 15 none rfl rfl (by decide)⟩

/-- C8: with the tier attributes set, every check — admitted or refused —
stores the current instant in `time_of_last_query`, and the admit/refuse
decision is taken on the already-decayed counter: a refused check leaves
exactly the decayed counter behind, and admission holds exactly when the
decayed counter is below the limit. -/
theorem C8_time_always_advances (ε α : Type) (qt : QueryType)
    (fo : Except ε (Option α)) (s : RateState) (now : Nat) (f : Nat) (l : Int)
    (hf : s.factor = some f) (hl : s.limit = some l) :
    (callratelimiter ε α qt fo s now).state.timeOfLastQuery = now ∧
    ((callratelimiter ε α qt fo s now).calledFunc = true ↔
      decayedCounter s f now < l) ∧
    ((callratelimiter ε α qt fo s now).calledFunc = false →
      (callratelimiter ε α qt fo s now).state.apiCounter =
        decayedCounter s f now) := by
  by_cases hc : decayedCounter s f now < l
  · rcases fo with e | v <;> simp [callratelimiter, hf, hl, hc]
  · simp [callratelimiter, hf, hl, hc]

/-- Witness for C8 at a refusing probe state: time moves from 0 to 7 even
though the check is refused. -/
theorem C8_time_always_advances_witness :
    ((callratelimiter Unit Unit QueryType.other (Except.ok none)
      (probeState 20) 7).state.timeOfLastQuery = 7 ∧
    ((callratelimiter Unit Unit QueryType.other (Except.ok none)
      (probeState 20) 7).calledFunc = true ↔
      decayedCounter (probeState 20) 3 7 < 15) ∧
    ((callratelimiter Unit Unit QueryType.other (Except.ok none)
      (probeState 20) 7).calledFunc = false →
      (callratelimiter Unit Unit QueryType.other (Except.ok none)
        (probeState 20) 7).state.apiCounter =
          decayedCounter (probeState 20) 3 7)) :=
  C8_time_always_advances Unit Unit QueryType.other (Except.ok none)
    (probeState 20) 7 3 15 rfl rfl

/-- C9: a refused call returns `None` (after printing the message), which
is the very outcome of an admitted call whose wrapped function returned
no data — the caller cannot tell the two apart from the returned value. -/
theorem C9_refusal_indistinguishable (ε α : Type) (qt : QueryType)
    (fo : Except ε (Option α)) (s : RateState) (now : Nat) (f : Nat) (l : Int)
    (hf : s.factor = some f) (hl : s.limit = some l)
    (hrefuse : l ≤ decayedCounter s f now) :
    (callratelimiter ε α qt fo s now).outcome = PyOutcome.ret none ∧
    (callratelimiter ε α qt fo s now).printed =
      ["api count limit exceeded, counter= " ++
        toString (decayedCounter s f now)] ∧
    ∀ (t : RateState) (g : Nat) (m : Int), t.factor = some g →
      t.limit = some m → decayedCounter t g now < m →
      (callratelimiter ε α qt (Except.ok none) t now).outcome =
        (callratelimiter ε α qt fo s now).outcome := by
  have hc : ¬ decayedCounter s f now < l := not_lt.mpr hrefuse
  refine ⟨by simp [callratelimiter, hf, hl, hc],
          by simp [callratelimiter, hf, hl, hc], ?_⟩
  intro t g m hg hm hadm
  simp [callratelimiter, hf, hl, hc, hg, hm, hadm]

/-- Witness for C9: the refused probe call returns `None` and prints the
counter, and a fresh admitted call whose function returned `None` yields
the same outcome. -/
theorem C9_refusal_indistinguishable_witness :
    (15 : Int) ≤ decayedCounter (probeState 20) 3 0 ∧
    ((callratelimiter Unit Unit QueryType.other (Except.ok none)
      (probeState 20) 0).outcome = PyOutcome.ret none ∧
    (callratelimiter Unit Unit QueryType.other (Except.ok none)
      (probeState 20) 0).printed =
      ["api count limit exceeded, counter= " ++
        toString (decayedCounter (probeState 20) 3 0)] ∧
    ∀ (t : RateState) (g : Nat) (m : Int), t.factor = some g →
      t.limit = some m → decayedCounter t g 0 < m →
      (callratelimiter Unit Unit QueryType.other (Except.ok none) t 0).outcome =
        (callratelimiter Unit Unit QueryType.other (Except.ok none)
          (probeState 20) 0).outcome) :=
  ⟨by decide,
   C9_refusal_indistinguishable Unit Unit QueryType.other (Except.ok none)
     (probeState 20) 0 3 15 rfl rfl (by decide)⟩

/-- C10: on an admitted call whose wrapped function raises, the exception
propagates, the counter keeps its post-decay value (no charge), the
timestamp has already advanced, and the function was indeed invoked;
the increment happens only on a normal return. -/
theorem C10_no_charge_on_raise (ε α : Type) (qt : QueryType) (e : ε)
    (s : RateState) (now : Nat) (f : Nat) (l : Int)
    (hf : s.factor = some f) (hl : s.limit = some l)
    (hadm : decayedCounter s f now < l) :
    (callratelimiter ε α qt (Except.error e) s now).outcome =
      PyOutcome.raised e ∧
    (callratelimiter ε α qt (Except.error e) s now).state.apiCounter =
      decayedCounter s f now ∧
    (callratelimiter ε α qt (Except.error e) s now).state.timeOfLastQuery =
      now ∧
    (callratelimiter ε α qt (Except.error e) s now).calledFunc = true ∧
    ∀ v : Option α,
      (callratelimiter ε α qt (Except.ok v) s now).state.apiCounter =
        decayedCounter s f now + incrOf qt := by
  refine ⟨?_, ?_, ?_, ?_, fun v => ?_⟩ <;>
    simp [callratelimiter, hf, hl, hadm]

/-- Witness for C10 at a fresh probe state: a raising heavy call is
charged nothing, a returning one is charged 2. -/
theorem C10_no_charge_on_raise_witness :
    decayedCounter (probeState 0) 3 5 < 15 ∧
    ((callratelimiter Unit Unit QueryType.ledgerTradeHistory
      (Except.error ()) (probeState 0) 5).outcome = PyOutcome.raised () ∧
    (callratelimiter Unit Unit QueryType.ledgerTradeHistory
      (Except.error ()) (probeState 0) 5).state.apiCounter =
      decayedCounter (probeState 0) 3 5 ∧
    (callratelimiter Unit Unit QueryType.ledgerTradeHistory
      (Except.error ()) (probeState 0) 5).state.timeOfLastQuery = 5 ∧
    (callratelimiter Unit Unit QueryType.ledgerTradeHistory
      (Except.error ()) (probeState 0) 5).calledFunc = true ∧
    ∀ v : Option Unit,
      (callratelimiter Unit Unit QueryType.ledgerTradeHistory
        (Except.ok v) (probeState 0) 5).state.apiCounter =
        decayedCounter (probeState 0) 3 5 + incrOf
          QueryType.ledgerTradeHistory) :=
  ⟨by decide,
   C10_no_charge_on_raise Unit Unit QueryType.ledgerTradeHistory ()
     (probeState 0) 5 3 15 rfl rfl (by decide)⟩

end PyKraken
